import Mathlib

/-!
Shallow embedding of the prediction core of the telegram-bot_ai-predictor
repository (src/unnamed/part_000, src/features/featureEngine.js,
src/unnamed/part_001 / src/api/apiHandler.js).

Modelling conventions:
* Finite JS numbers are rationals (ℚ).  JS NaN, null and undefined are
  explicit variants of `JSVal`.  Because the `Number()` coercion can also
  yield ±Infinity (e.g. for the string `1e999`), the payload validator is
  additionally modelled over the exact value classes of a JS number
  (`JSNum`: finite, +Infinity, -Infinity, NaN) with the IEEE-754
  special-value rules; `normalizePredictionX_agrees` shows the ℚ-level
  validator is the restriction of that model to payloads without
  non-finite fields.
* SQLite column values are `Option ℚ` / `Option String` (NULL = none).
* Dates are integers counted in days; `shiftDate(d, -365)` becomes `d - 365`,
  and string-to-Date parsing is collapsed: a row stores `Option ℤ`, none
  standing for a NULL or unparseable date column.
* `Math.round(x*100)/100` becomes `round` below via the integer floor of
  `100*x + 1/2` (JS Math.round rounds half towards positive infinity).
* JS Array.prototype.sort with a numeric comparator is a stable sort; we use
  the structural stable insertion sort from Mathlib, which agrees with every
  stable sort for a total preorder key.
-/

namespace PredictorBot

/-- A JavaScript value as it can appear in a parsed generator payload field,
restricted to the finite fragment: a finite number, NaN, null, undefined,
or a boolean.  String fields that are fed through numeric coercion are
represented by the number (or NaN) that `Number()` yields for them; a value
whose coercion yields ±Infinity has no representative here and is handled
by the extended model (`JSValX`/`toNumberX` below), which agrees with this
fragment (`toNumberX_toX`, `normalizePredictionX_agrees`). -/
inductive JSVal where
  | num (q : ℚ)
  | nan
  | null
  | undef
  | bool (b : Bool)
deriving DecidableEq

/-- part_000 line 732 `toNumber` on the finite fragment: a non-NaN number
is returned as is, otherwise `Number(value)` coercion is applied and NaN
maps to null (`Number(null) = 0`, `Number(undefined) = NaN`,
`Number(true) = 1`, `Number(false) = 0`).  Only NaN is rejected by the
source; coercions yielding ±Infinity are outside this fragment and carried
faithfully by `toNumberX` below. -/
def toNumber : JSVal → Option ℚ
  | .num q => some q
  | .nan => none
  | .null => some 0
  | .undef => none
  | .bool b => some (if b then 1 else 0)

/-- part_000 line 728 `round`: `Math.round(value * 100) / 100`. -/
def round (value : ℚ) : ℚ := ((⌊value * 100 + 1 / 2⌋ : ℤ) : ℚ) / 100

/-- part_000 line 724 `clamp(min, max, value)`:
`Math.max(min, Math.min(max, value))`. -/
def clamp (lo hi value : ℚ) : ℚ := max lo (min hi value)

/-- One row of the `«matches»` table (columns as created by dbSetup and
selected by the various queries). -/
structure MatchRow where
  match_id : ℤ
  sport : Option String := none
  date : Option ℤ := none
  status : Option String := none
  home_team : Option String := none
  away_team : Option String := none
  home_team_id : Option ℤ := none
  away_team_id : Option ℤ := none
  home_goals : Option ℚ := none
  away_goals : Option ℚ := none
deriving DecidableEq

/-- One row of the `stats` table. -/
structure StatsRow where
  match_id : ℤ
  sport : Option String := none
  home_form : Option ℚ := none
  away_form : Option ℚ := none
  home_goals_avg : Option ℚ := none
  away_goals_avg : Option ℚ := none
deriving DecidableEq

/-- The relational store: the two tables the prediction core touches. -/
structure DB where
  «matches» : List MatchRow
  stats : List StatsRow
deriving DecidableEq

/-- Wrap an SQLite numeric column value (number or NULL) as a `JSVal` so the
part_000 `toNumber` can be applied to it. -/
def dbVal : Option ℚ → JSVal
  | some q => .num q
  | none => .null

/-- Last `n` elements of a list, in order: JS `slice(-n)` for `n > 0`. -/
def takeLast (n : ℕ) (l : List α) : List α := l.drop (l.length - n)

namespace FeatureEngine

/-- featureEngine.js line 138 `toNumber`, applied to SQLite goal columns:
a number is returned as is, null/undefined map to null, anything else goes
through `Number()` coercion.  On the number-or-NULL domain of the goals
columns this keeps a number and rejects NULL. -/
def toNumber : Option ℚ → Option ℚ
  | some q => some q
  | none => none

/-- The sort key used by the comparator `(a, b) => da - db` in
featureEngine.js lines 87-91: the parsed date, 0 when absent. -/
def dateKey (m : MatchRow) : ℤ := m.date.getD 0

/-- The filter predicate of featureEngine.js lines 78-86: the row has a
parseable date, involves the team, is strictly before the reference date
(when one exists) and not older than the 365-day cutoff (when one exists). -/
def qualifies (teamName : String) (currentDate : Option ℤ) (cutoff : Option ℤ)
    (m : MatchRow) : Bool :=
  match m.date with
  | none => false
  | some d =>
    (m.home_team == some teamName || m.away_team == some teamName) &&
    (match currentDate with
     | some c => decide (d < c)
     | none => true) &&
    (match cutoff with
     | some c => decide (c ≤ d)
     | none => true)

/-- One iteration of the accumulator loop of featureEngine.js lines 105-121
over the state `(wins, gamesCount, goalsForTotal)`: skip a row whose goal
columns do not both resolve to numbers, otherwise count the game, add the
goals of the side the team occupies, and count a win when that side scored
strictly more. -/
def tallyStep (teamName : String) (acc : ℕ × ℕ × ℚ) (m : MatchRow) : ℕ × ℕ × ℚ :=
  match toNumber m.home_goals, toNumber m.away_goals with
  | some homeGoals, some awayGoals =>
    if m.home_team == some teamName then
      ((if homeGoals > awayGoals then acc.1 + 1 else acc.1),
       acc.2.1 + 1, acc.2.2 + homeGoals)
    else
      ((if awayGoals > homeGoals then acc.1 + 1 else acc.1),
       acc.2.1 + 1, acc.2.2 + awayGoals)
  | _, _ => acc

/-- The accumulator loop of featureEngine.js lines 105-121: a fold of
`tallyStep` over the kept rows starting from `(0, 0, 0)`. -/
def tallyGames (teamName : String) (rows : List MatchRow) : ℕ × ℕ × ℚ :=
  rows.foldl (tallyStep teamName) (0, 0, 0)

/-- The result record of `calcTeamStats`. -/
structure TeamStats where
  form : ℚ
  avgGoalsFor : ℚ
deriving DecidableEq

/-- featureEngine.js lines 66-131 `calcTeamStats`: filter to the team's
in-window «matches», sort ascending by date, keep the last `windowSize`, then
tally wins, score-resolvable games and goals; `form = wins / max(games, 1)`
and `avgGoalsFor = round(goalsForTotal / gamesCount)` (0 when no game has
resolvable scores).  A falsy team name (null / empty) yields the default. -/
def calcTeamStats («matches» : List MatchRow) (teamName : Option String)
    (currentDateStr : Option ℤ) (windowSize : ℕ := 10) : TeamStats :=
  match teamName with
  | none => ⟨0, 0⟩
  | some t =>
    if t = "" then ⟨0, 0⟩
    else
      let currentDate := currentDateStr
      let cutoff := currentDate.map (· - 365)
      let relevant :=
        takeLast windowSize
          ((«matches».filter (qualifies t currentDate cutoff)).insertionSort
            (fun a b => dateKey a ≤ dateKey b))
      if relevant.isEmpty then ⟨0, 0⟩
      else
        let tally := tallyGames t relevant
        let wins := tally.1
        let gamesCount := tally.2.1
        let goalsForTotal := tally.2.2
        let denominator : ℕ := max gamesCount 1
        let form : ℚ := (wins : ℚ) / (denominator : ℚ)
        let avgGoalsFor : ℚ :=
          if gamesCount = 0 then 0 else goalsForTotal / (gamesCount : ℚ)
        ⟨form, round avgGoalsFor⟩

/-- Both goal columns of the row resolve to numbers. -/
def hasScores (m : MatchRow) : Bool :=
  (toNumber m.home_goals).isSome && (toNumber m.away_goals).isSome

/-- The team's goals in a row, read from the side the team occupies
(home side when `home_team` equals the team, away side otherwise). -/
def goalsFor (teamName : String) (m : MatchRow) : ℚ :=
  if m.home_team == some teamName then (toNumber m.home_goals).getD 0
  else (toNumber m.away_goals).getD 0

/-- The row is a win for the team: scores resolve and the team's side
scored strictly more. -/
def winFor (teamName : String) (m : MatchRow) : Bool :=
  match toNumber m.home_goals, toNumber m.away_goals with
  | some homeGoals, some awayGoals =>
    if m.home_team == some teamName then decide (homeGoals > awayGoals)
    else decide (awayGoals > homeGoals)
  | _, _ => false

/-- The statistic the claim describes, word for word: keep only in-window
team «matches» **with known scores**, take the `windowSize` most recent of
those, and compute `form = wins / max(games, 1)` and
`scoringAvg = round(sum of the team's scores / games)` over that kept set. -/
def claimTeamStats («matches» : List MatchRow) (teamName : Option String)
    (currentDateStr : Option ℤ) (windowSize : ℕ := 10) : TeamStats :=
  match teamName with
  | none => ⟨0, 0⟩
  | some t =>
    if t = "" then ⟨0, 0⟩
    else
      let currentDate := currentDateStr
      let cutoff := currentDate.map (· - 365)
      let kept :=
        takeLast windowSize
          ((«matches».filter
              (fun m => qualifies t currentDate cutoff m && hasScores m)).insertionSort
            (fun a b => dateKey a ≤ dateKey b))
      let games := kept.length
      let wins := kept.countP (winFor t)
      let form : ℚ := (wins : ℚ) / (max games 1 : ℕ)
      let avg : ℚ :=
        if games = 0 then 0
        else round (((kept.map (goalsFor t)).sum) / (games : ℚ))
      ⟨form, avg⟩

/-- The amended statistic: truncate to the `windowSize` most recent
in-window «matches» first (whether or not their scores are known), and only
then restrict the tallies to the score-resolvable rows among them. -/
def amendedTeamStats («matches» : List MatchRow) (teamName : Option String)
    (currentDateStr : Option ℤ) (windowSize : ℕ := 10) : TeamStats :=
  match teamName with
  | none => ⟨0, 0⟩
  | some t =>
    if t = "" then ⟨0, 0⟩
    else
      let currentDate := currentDateStr
      let cutoff := currentDate.map (· - 365)
      let relevant :=
        takeLast windowSize
          ((«matches».filter (qualifies t currentDate cutoff)).insertionSort
            (fun a b => dateKey a ≤ dateKey b))
      let games := relevant.countP hasScores
      let wins := relevant.countP (winFor t)
      let form : ℚ := (wins : ℚ) / (max games 1 : ℕ)
      let avg : ℚ :=
        if games = 0 then 0
        else round ((((relevant.filter hasScores).map (goalsFor t)).sum) / (games : ℚ))
      ⟨form, avg⟩

end FeatureEngine

/-! ### part_000: payload normalization -/

/-- JS truthiness of a nullable string: null, undefined and the empty
string are falsy. -/
def strTruthy (s : Option String) : Bool := !(s.getD ("") == "")

/-- JS truthiness of a nullable integer id: null, undefined and 0 are
falsy. -/
def idTruthy (i : Option ℤ) : Bool := !(i.getD 0 == 0)

/-- The `probabilities` object of a raw generator payload; absent fields are
undefined. -/
structure RawProbs where
  home : JSVal := .undef
  draw : JSVal := .undef
  away : JSVal := .undef
deriving DecidableEq

/-- The `betting_advice` object of a raw generator payload. -/
structure RawAdvice where
  recommendation : Option String := none
  confidence : JSVal := .undef
  reasoning : Option String := none
deriving DecidableEq

/-- A raw generator payload after the incoming-payload extraction
(part_000 `normalizeIncomingPayload`), i.e. a JS object whose fields the
validator `normalizePrediction` inspects.  String-valued fields where only
presence matters are `Option String`; numeric candidates are `JSVal`. -/
structure RawPayload where
  match_id : Option ℤ := none
  prediction : Option String := none
  probabilities : Option RawProbs := none
  explanation : Option String := none
  betting_advice : Option RawAdvice := none
  engine : Option String := none
deriving DecidableEq

/-- The validated probability triple. -/
structure Probs where
  home : ℚ
  draw : ℚ
  away : ℚ
deriving DecidableEq

/-- The validated betting advice. -/
structure BettingAdvice where
  recommendation : String
  confidence : ℚ
  reasoning : String
deriving DecidableEq

/-- The canonical prediction produced by `normalizePrediction` (the engine
tag is attached by the orchestrator afterwards). -/
structure Prediction where
  match_id : ℤ
  prediction : String
  probabilities : Probs
  explanation : String
  betting_advice : BettingAdvice
deriving DecidableEq

/-- part_000 lines 604-640 `normalizePrediction(payload, matchId)`: null for
a non-object payload; parse the three probability fields with `toNumber` and
reject if any is null; reject a non-positive total (the JS guard
`!total || total <= 0` collapses to `total ≤ 0` over ℚ); otherwise divide
each by the total and round to 2 decimals, default the text fields, and
default a non-numeric confidence to 0 (a numeric one is rounded). -/
def normalizePrediction (payload : Option RawPayload) (matchId : ℤ) :
    Option Prediction :=
  match payload with
  | none => none
  | some payload =>
    let probs := payload.probabilities.getD {}
    match toNumber probs.home, toNumber probs.draw, toNumber probs.away with
    | some probHome, some probDraw, some probAway =>
      let total := probHome + probDraw + probAway
      if total ≤ 0 then none
      else
        let normalized : Probs :=
          ⟨round (probHome / total), round (probDraw / total),
           round (probAway / total)⟩
        let bettingAdvice := payload.betting_advice.getD {}
        let safeConfidence : ℚ :=
          match toNumber bettingAdvice.confidence with
          | none => 0
          | some c => round c
        some
          { match_id := payload.match_id.getD matchId
            prediction := payload.prediction.getD ("Unentschieden")
            probabilities := normalized
            explanation := payload.explanation.getD ("Keine Erklaerung vorhanden.")
            betting_advice :=
              { recommendation := bettingAdvice.recommendation.getD ("Keine Empfehlung")
                confidence := safeConfidence
                reasoning := bettingAdvice.reasoning.getD ("Keine Begruendung vorhanden.") } }
    | _, _, _ => none

/-! ### part_000: rule-based predictor -/

/-- One entry of `SPORT_PROMPT_META` (part_000 lines 23-36). -/
structure SportMeta where
  analystLabel : String
  scoringLabel : String
  scoringLong : String
  drawLabel : String
deriving DecidableEq

/-- The football entry of `SPORT_PROMPT_META`. -/
def footballMeta : SportMeta :=
  ⟨"Fussball-Analyst", "Tore", "Torproduktion", "Unentschieden"⟩

/-- The basketball entry of `SPORT_PROMPT_META`. -/
def basketballMeta : SportMeta :=
  ⟨"Basketball-Analyst", "Punkte", "Punktproduktion", "Unentschieden"⟩

/-- `SPORT_PROMPT_META[sport] ?? SPORT_PROMPT_META.football`. -/
def SPORT_PROMPT_META (sport : String) : SportMeta :=
  if sport = "football" then footballMeta
  else if sport = "basketball" then basketballMeta
  else footballMeta

/-- A canonical prediction together with its engine tag, as returned to the
caller (`{...validated, engine}` in part_000, or the object literal built by
`simpleRulePredict`). -/
structure FinalPrediction where
  match_id : ℤ
  prediction : String
  probabilities : Probs
  explanation : String
  betting_advice : BettingAdvice
  engine : String
deriving DecidableEq

/-- The spread `{...validated, engine: source}` of part_000 lines 92 and
104. -/
def withEngine (p : Prediction) (engine : String) : FinalPrediction :=
  { match_id := p.match_id
    prediction := p.prediction
    probabilities := p.probabilities
    explanation := p.explanation
    betting_advice := p.betting_advice
    engine := engine }

/-- A match record as produced by `getMatchRecord` (part_000 lines 298-322):
the selected columns with `COALESCE(sport, 'football')` applied. -/
structure MatchRecord where
  match_id : ℤ
  sport : String
  date : Option ℤ := none
  status : Option String := none
  home_team : Option String := none
  away_team : Option String := none
  home_team_id : Option ℤ := none
  away_team_id : Option ℤ := none
deriving DecidableEq

/-- The feature record returned by `getFeatures` (part_000 lines 38-63):
missing numeric columns already defaulted to 0, sport coalesced. -/
structure Features where
  sport : String
  home_form : ℚ
  away_form : ℚ
  home_goals_avg : ℚ
  away_goals_avg : ℚ
deriving DecidableEq

/-- part_000 lines 642-697 `simpleRulePredict(match, features)`.  The three
`randomSpread(0.1)` draws are passed explicitly as `jitterHome`,
`jitterAway`, `jitterDraw` (each drawn from the open interval from -1/10 to
1/10 at runtime).  Everything else is deterministic; the rational `toString`
in the explanation stands in for the JS decimal rendering. -/
def simpleRulePredict (m : MatchRecord) (features : Features)
    (jitterHome jitterAway jitterDraw : ℚ) : FinalPrediction :=
  let score := (features.home_form - features.away_form) +
    (features.home_goals_avg - features.away_goals_avg)
  let sport := m.sport
  let meta := SPORT_PROMPT_META sport
  let triple : String × String × ℚ :=
    if score > 3 / 10 then
      ("Heimsieg", "Heimsieg", min (85 / 100 : ℚ) (1 / 2 + |score|))
    else if score < -(3 / 10) then
      ("Auswaertssieg", "Auswaertssieg", min (85 / 100 : ℚ) (1 / 2 + |score|))
    else
      (meta.drawLabel,
       (if sport = "basketball" then "Spread meiden" else "Unter 2.5 Tore"),
       (6 / 10 : ℚ))
  let prediction := triple.1
  let recommendation := triple.2.1
  let confidence := triple.2.2
  let probHome := clamp (1 / 10) (8 / 10) (1 / 2 + score + jitterHome)
  let probAway := clamp (1 / 10) (8 / 10) (1 / 2 - score + jitterAway)
  let probDraw := clamp (1 / 20) (6 / 10) (1 / 5 + jitterDraw)
  let total := probHome + probAway + probDraw
  let probHome := probHome / total
  let probAway := probAway / total
  let probDraw := probDraw / total
  { match_id := m.match_id
    prediction := prediction
    probabilities := ⟨round probHome, round probDraw, round probAway⟩
    explanation :=
      "Regelbasiertes Modell Score=" ++ toString (round score) ++
      " | Formdifferenz " ++
      toString (round (features.home_form - features.away_form)) ++
      " | " ++ meta.scoringLabel ++ "-Differenz " ++
      toString (round (features.home_goals_avg - features.away_goals_avg))
    betting_advice :=
      { recommendation := recommendation
        confidence := round confidence
        reasoning := "Basierend auf Form- und " ++ meta.scoringLabel ++
          "-Differenz der Teams." }
    engine := "rule-based" }

/-! ### Cross-sport id scheme (part_000 lines 18-21, 703-718; part_001
lines 12-15, 681-688) -/

/-- `Object.values(SPORT_OFFSETS)` in insertion order (part_000
lines 18-21). -/
def sportOffsetValues : List ℚ := [0, 5000000000]

/-- `MATCH_ID_OFFSETS[sport]` (part_001 lines 12-15): a known sport maps to
its offset, an unknown key yields undefined (none). -/
def MATCH_ID_OFFSETS (sport : String) : Option ℚ :=
  if sport = "football" then some 0
  else if sport = "basketball" then some 5000000000
  else none

/-- part_001 lines 681-688 `composeMatchId(rawId, sport)`: coerce the raw id
with `Number()` (our `toNumber`; a value that fails the finiteness check
yields null), then add the sport offset, 0 for an unknown sport. -/
def composeMatchId (rawId : JSVal) (sport : String) : Option ℚ :=
  match toNumber rawId with
  | none => none
  | some numeric => some ((MATCH_ID_OFFSETS sport).getD 0 + numeric)

/-- part_000 lines 703-718 `makeCandidateMatchIds(matchId)`: starting from
the numeric base id, add `base + offset` for every non-zero offset and
`base - offset` when the base is at least the offset (a JS Set keeps
insertion order and drops duplicates), then keep the non-negative values. -/
def makeCandidateMatchIds (matchId : JSVal) : List ℚ :=
  match toNumber matchId with
  | none => []
  | some baseId =>
    let candidates :=
      sportOffsetValues.foldl
        (fun acc offset =>
          if offset = 0 then acc
          else
            let acc :=
              if acc.contains (baseId + offset) then acc
              else acc ++ [baseId + offset]
            if baseId ≥ offset then
              (if acc.contains (baseId - offset) then acc
               else acc ++ [baseId - offset])
            else acc)
        [baseId]
    candidates.filter (fun value => decide (0 ≤ value))

/-- part_000 lines 298-322 `getMatchRecord(matchId)`: probe the `matches`
table with each candidate id in order and return the first row found, with
`COALESCE(sport, 'football')` applied. -/
def getMatchRecord (rows : List MatchRow) (matchId : ℚ) : Option MatchRecord :=
  (makeCandidateMatchIds (.num matchId)).findSome? fun candidate =>
    (rows.find? (fun m => ((m.match_id : ℚ) == candidate))).map fun row =>
      { match_id := row.match_id
        sport := row.sport.getD ("football")
        date := row.date
        status := row.status
        home_team := row.home_team
        away_team := row.away_team
        home_team_id := row.home_team_id
        away_team_id := row.away_team_id }

/-! ### part_000: match store queries and history hydration -/

/-- part_000 line 13. -/
def TEAM_HISTORY_SIZE : ℕ := 12

/-- part_000 line 14. -/
def H2H_HISTORY_SIZE : ℕ := 10

/-- part_000 lines 454-480 `fetchRecentMatches`: the rows involving the
team, excluding the target match, in the same (coalesced) sport, with date
and both goal columns non-NULL, strictly before `beforeDate` when given,
ordered by date descending and truncated to `limit`. -/
def fetchRecentMatches (rows : List MatchRow) (teamName : Option String)
    (excludeMatchId : ℤ) (beforeDate : Option ℤ) (sport : String)
    (limit : ℕ) : List MatchRow :=
  if !(strTruthy teamName) then []
  else
    ((rows.filter fun m =>
        (m.home_team == teamName || m.away_team == teamName) &&
        !(m.match_id == excludeMatchId) &&
        (m.sport.getD ("football") == sport) &&
        m.date.isSome && m.home_goals.isSome && m.away_goals.isSome &&
        (match beforeDate with
         | some b => decide (m.date.getD 0 < b)
         | none => true)).insertionSort
      (fun a b => FeatureEngine.dateKey b ≤ FeatureEngine.dateKey a)).take limit

/-- part_000 lines 482-512 `fetchHeadToHead`: the rows pairing the two
teams (either orientation), same filters and ordering as
`fetchRecentMatches`. -/
def fetchHeadToHead (rows : List MatchRow) (homeTeam awayTeam : Option String)
    (excludeMatchId : ℤ) (beforeDate : Option ℤ) (sport : String)
    (limit : ℕ) : List MatchRow :=
  if !(strTruthy homeTeam) || !(strTruthy awayTeam) then []
  else
    ((rows.filter fun m =>
        !(m.match_id == excludeMatchId) &&
        (m.sport.getD ("football") == sport) &&
        ((m.home_team == homeTeam && m.away_team == awayTeam) ||
         (m.home_team == awayTeam && m.away_team == homeTeam)) &&
        m.date.isSome && m.home_goals.isSome && m.away_goals.isSome &&
        (match beforeDate with
         | some b => decide (m.date.getD 0 < b)
         | none => true)).insertionSort
      (fun a b => FeatureEngine.dateKey b ≤ FeatureEngine.dateKey a)).take limit

/-- part_000 line 699 `buildHistoryKey`. -/
def buildHistoryKey (sport : String) (teamId : ℤ) : String :=
  sport ++ ":" ++ toString teamId

/-- One outbound request to the ingestion collaborator
(`fetchTeamHistory` or `fetchHeadToHeadHistory` of apiHandler). -/
inductive BackfillCall where
  | team (teamId : ℤ) (limit : ℕ) (sport : String)
  | h2h (teamAId teamBId : ℤ) (limit : ℕ) (sport : String)
deriving DecidableEq

/-- SQLite `INSERT OR REPLACE` of one row keyed by `match_id`
(apiHandler `saveMatches`): an existing row is deleted and the new one
appended. -/
def upsertOne (rows : List MatchRow) (r : MatchRow) : List MatchRow :=
  if rows.any (fun m => m.match_id == r.match_id) then
    rows.filter (fun m => !(m.match_id == r.match_id)) ++ [r]
  else rows ++ [r]

/-- Upsert a batch of fetched rows in order. -/
def upsertMatches (rows fetched : List MatchRow) : List MatchRow :=
  fetched.foldl upsertOne rows

/-- The mutable context threaded through `hydrateMatchHistory`: the
`matches` table, the process-lifetime `fetchedHistoryTeams` memo, and the
trace of backfill requests issued so far. -/
structure HydrateState where
  rows : List MatchRow
  memo : List String
  calls : List BackfillCall
deriving DecidableEq

/-- The external collaborators of the prediction pipeline: the database,
the memo at entry, the ingestion backfill (which returns the canonical rows
it also upserts - apiHandler `fetchTeamHistory` / `fetchHeadToHeadHistory`
followed by `saveMatches`), and the parsed payloads the remote and local
generators would produce for this request (after
`normalizeIncomingPayload`; none models a failed call or unusable
payload). -/
structure Env where
  db : DB
  memo : List String
  fetchTeam : ℤ → ℕ → String → List MatchRow
  fetchH2H : ℤ → ℤ → ℕ → String → List MatchRow
  remoteParsed : Option RawPayload := none
  ollamaParsed : Option RawPayload := none

/-- part_000 lines 328-346 (one team): when the team id is truthy and its
`sport:id` key is not in the memo, issue one backfill request; the key is
memoized only when the fetch returned a non-empty array. -/
def prefetchTeam (env : Env) (sport : String) (teamId : Option ℤ)
    (st : HydrateState) : HydrateState :=
  if idTruthy teamId then
    let tid := teamId.getD 0
    let key := buildHistoryKey sport tid
    if st.memo.contains key then st
    else
      let fetched := env.fetchTeam tid TEAM_HISTORY_SIZE sport
      { rows := upsertMatches st.rows fetched
        memo := if fetched.length ≠ 0 then st.memo ++ [key] else st.memo
        calls := st.calls ++ [.team tid TEAM_HISTORY_SIZE sport] }
  else st

/-- part_000 lines 350-388 (one team): query the store; when fewer than 3
rows come back and the team id is truthy, issue one more backfill request
and re-query (the re-queried list is local to `hydrateMatchHistory` and
discarded). -/
def retryTeam (env : Env) (sport : String) (matchId : ℤ)
    (referenceDate : Option ℤ) (teamName : Option String)
    (teamId : Option ℤ) (st : HydrateState) : HydrateState :=
  let recent :=
    fetchRecentMatches st.rows teamName matchId referenceDate sport
      TEAM_HISTORY_SIZE
  if recent.length < 3 && idTruthy teamId then
    let tid := teamId.getD 0
    let fetched := env.fetchTeam tid TEAM_HISTORY_SIZE sport
    { rows := upsertMatches st.rows fetched
      memo := st.memo
      calls := st.calls ++ [.team tid TEAM_HISTORY_SIZE sport] }
  else st

/-- part_000 lines 390-410: the head-to-head analogue of `retryTeam`
(threshold 3, cap `H2H_HISTORY_SIZE`, requires both team ids). -/
def retryH2H (env : Env) (sport : String) (matchId : ℤ)
    (referenceDate : Option ℤ) (homeTeam awayTeam : Option String)
    (homeId awayId : Option ℤ) (st : HydrateState) : HydrateState :=
  let h2h :=
    fetchHeadToHead st.rows homeTeam awayTeam matchId referenceDate sport
      H2H_HISTORY_SIZE
  if h2h.length < 3 && idTruthy homeId && idTruthy awayId then
    let fetched :=
      env.fetchH2H (homeId.getD 0) (awayId.getD 0) H2H_HISTORY_SIZE sport
    { rows := upsertMatches st.rows fetched
      memo := st.memo
      calls := st.calls ++ [.h2h (homeId.getD 0) (awayId.getD 0) H2H_HISTORY_SIZE sport] }
  else st

/-- part_000 lines 324-411 `hydrateMatchHistory(match)`: memo-guarded
prefetch for the home then the away team, then the three sparse-result
retries (home recent, away recent, head-to-head), in source order. -/
def hydrateMatchHistory (env : Env) (m : MatchRecord) (st : HydrateState) :
    HydrateState :=
  let sport := m.sport
  let referenceDate := m.date
  let st1 := prefetchTeam env sport m.home_team_id st
  let st2 := prefetchTeam env sport m.away_team_id st1
  let st3 := retryTeam env sport m.match_id referenceDate m.home_team
    m.home_team_id st2
  let st4 := retryTeam env sport m.match_id referenceDate m.away_team
    m.away_team_id st3
  retryH2H env sport m.match_id referenceDate m.home_team m.away_team
    m.home_team_id m.away_team_id st4

/-! ### part_000: features and the tiered orchestrator -/

/-- part_000 lines 38-63 `getFeatures(matchId, sportHint)`: the first
`stats` row with the given match id whose coalesced sport
(`COALESCE(s.sport, m.sport, hint)` over the LEFT JOIN with `matches`)
agrees with `COALESCE(m.sport, hint)`; numeric columns default to 0 through
`toNumber(...) ?? 0`. -/
def getFeatures (db : DB) (matchId : ℤ) (sportHint : String) :
    Option Features :=
  let joined := fun (s : StatsRow) =>
    db.«matches».find? (fun m => m.match_id == s.match_id)
  let matchSport := fun (s : StatsRow) =>
    ((joined s).bind (fun m => m.sport)).getD sportHint
  let rowSport := fun (s : StatsRow) => s.sport.getD (matchSport s)
  match db.stats.find?
      (fun s => s.match_id == matchId && rowSport s == matchSport s) with
  | none => none
  | some s =>
    some
      { sport := rowSport s
        home_form := (toNumber (dbVal s.home_form)).getD 0
        away_form := (toNumber (dbVal s.away_form)).getD 0
        home_goals_avg := (toNumber (dbVal s.home_goals_avg)).getD 0
        away_goals_avg := (toNumber (dbVal s.away_goals_avg)).getD 0 }

/-- The generator-tier configuration: part_000 lines 9-11
(`LLAMA_SERVER_URL`, `OLLAMA_MODEL`); a missing environment variable is
none. -/
structure Config where
  llamaServerUrl : Option String := none
  ollamaModel : Option String := none
deriving DecidableEq

/-- A network call to one of the two generator tiers. -/
inductive GenCall where
  | remote
  | ollama
deriving DecidableEq

/-- The value `predictMatch` resolves with: an error object or a final
prediction. -/
inductive PredictResult where
  | err (message : String)
  | ok (p : FinalPrediction)
deriving DecidableEq

/-- The hydration run performed inside `predictMatch`, starting from the
stored table and the process memo with an empty call trace. -/
def hydratedState (env : Env) (m : MatchRecord) : HydrateState :=
  hydrateMatchHistory env m
    { rows := env.db.«matches», memo := env.memo, calls := [] }

/-- part_000 lines 65-111 `predictMatch(matchId)`: parse the id, look up the
match, hydrate history, look up features, then try the remote tier (when
`LLAMA_SERVER_URL` is truthy), the ollama tier (when `OLLAMA_MODEL` is
truthy) and finally the rule-based fallback.  Besides the result it returns
the generator calls that were attempted and the hydration state (the prompt
construction feeds only the modelled-as-oracle generators and is not
re-modelled).  The jitter arguments are handed to `simpleRulePredict`. -/
def predictMatch (cfg : Config) (env : Env) (matchId : JSVal)
    (jitterHome jitterAway jitterDraw : ℚ) :
    PredictResult × List GenCall × HydrateState :=
  match toNumber matchId with
  | none =>
    (.err ("Ungueltige Match-ID"), [],
     { rows := env.db.«matches», memo := env.memo, calls := [] })
  | some numericId =>
    match getMatchRecord env.db.«matches» numericId with
    | none =>
      (.err ("Match nicht gefunden"), [],
       { rows := env.db.«matches», memo := env.memo, calls := [] })
    | some m =>
      let st := hydratedState env m
      match getFeatures ⟨st.rows, env.db.stats⟩ m.match_id m.sport with
      | none => (.err ("Keine Features gefunden"), [], st)
      | some features =>
        let remoteStep : Option FinalPrediction × List GenCall :=
          if strTruthy cfg.llamaServerUrl then
            match env.remoteParsed with
            | some parsed =>
              (match normalizePrediction (some parsed) m.match_id with
               | some validated =>
                 (some (withEngine validated (parsed.engine.getD ("llama"))),
                  [.remote])
               | none => (none, [.remote]))
            | none => (none, [.remote])
          else (none, [])
        match remoteStep with
        | (some out, calls) => (.ok out, calls, st)
        | (none, calls1) =>
          let ollamaStep : Option FinalPrediction × List GenCall :=
            if strTruthy cfg.ollamaModel then
              match env.ollamaParsed with
              | some parsed =>
                (match normalizePrediction (some parsed) m.match_id with
                 | some validated =>
                   (some (withEngine validated ("ollama")), [.ollama])
                 | none => (none, [.ollama]))
              | none => (none, [.ollama])
            else (none, [])
          match ollamaStep with
          | (some out, calls2) => (.ok out, calls1 ++ calls2, st)
          | (none, calls2) =>
            (.ok (simpleRulePredict m features jitterHome jitterAway jitterDraw),
             calls1 ++ calls2, st)

/-- The linear score of the rule-based predictor (part_000 lines 643-645). -/
def ruleScore (features : Features) : ℚ :=
  (features.home_form - features.away_form) +
    (features.home_goals_avg - features.away_goals_avg)

/-- How many backfill requests in a trace target the given team id. -/
def countTeamCalls (calls : List BackfillCall) (tid : ℤ) : ℕ :=
  calls.countP fun c =>
    match c with
    | .team t _ _ => t == tid
    | .h2h _ _ _ _ => false

/-! ### Extended number model

`JSVal`/`toNumber` above cover the finite fragment of JS numbers.  The
`Number()` coercion can however yield ±Infinity (for example for the
JSON-representable string `1e999`), and part_000's `toNumber` returns such
a value unchanged - only NaN maps to null.  The definitions below model the
payload validator over the exact value classes of a JS number (a finite
rational, an infinity, or NaN), with the IEEE-754 special-value rules JS
uses; finite arithmetic stays exact as everywhere else in this development.
`normalizePredictionX_agrees` proves the ℚ-level `normalizePrediction` is
the restriction of this model to payloads without non-finite fields. -/

/-- The exact value class of a JS number: a finite rational, one of the two
infinities, or NaN. -/
inductive JSNum where
  | fin (q : ℚ)
  | posInf
  | negInf
  | nan
deriving DecidableEq

/-- JS addition on number value classes: NaN propagates, opposite
infinities give NaN, an infinity absorbs finite values, finite addition is
exact. -/
def addN : JSNum → JSNum → JSNum
  | .nan, _ => .nan
  | _, .nan => .nan
  | .posInf, .negInf => .nan
  | .negInf, .posInf => .nan
  | .posInf, _ => .posInf
  | _, .posInf => .posInf
  | .negInf, _ => .negInf
  | _, .negInf => .negInf
  | .fin a, .fin b => .fin (a + b)

/-- JS division on number value classes: NaN propagates, infinity over
infinity is NaN, infinity over a finite value keeps the sign, a finite
value over an infinity is 0 (signed zeros are not distinguished), and a
finite value over 0 is a signed infinity (NaN for 0/0). -/
def divN : JSNum → JSNum → JSNum
  | .nan, _ => .nan
  | _, .nan => .nan
  | .posInf, .posInf => .nan
  | .posInf, .negInf => .nan
  | .negInf, .posInf => .nan
  | .negInf, .negInf => .nan
  | .posInf, .fin b => if b < 0 then .negInf else .posInf
  | .negInf, .fin b => if b < 0 then .posInf else .negInf
  | .fin _, .posInf => .fin 0
  | .fin _, .negInf => .fin 0
  | .fin a, .fin b =>
    if b = 0 then (if a = 0 then .nan else if a > 0 then .posInf else .negInf)
    else .fin (a / b)

/-- `Math.round(x * 100) / 100` on number value classes: the infinities and
NaN pass through unchanged. -/
def roundN : JSNum → JSNum
  | .fin q => .fin (round q)
  | .posInf => .posInf
  | .negInf => .negInf
  | .nan => .nan

/-- JS truthiness of a number: 0 and NaN are falsy, everything else
(including the infinities) is truthy. -/
def truthyN : JSNum → Bool
  | .fin q => !(q == 0)
  | .nan => false
  | .posInf => true
  | .negInf => true

/-- The comparison `value <= 0` on number value classes: false for NaN and
+Infinity, true for -Infinity. -/
def leZeroN : JSNum → Bool
  | .fin q => decide (q ≤ 0)
  | .negInf => true
  | .posInf => false
  | .nan => false

/-- A payload field value in the extended model: a number of any value
class, null, undefined, or a boolean.  As before, a string field stands for
the number its `Number()` coercion yields (`.num .posInf` for `1e999`,
`.num .nan` for a non-numeric string). -/
inductive JSValX where
  | num (v : JSNum)
  | null
  | undef
  | bool (b : Bool)
deriving DecidableEq

/-- part_000 line 732 `toNumber` on the extended domain: a non-NaN number -
finite or infinite - is returned as is; NaN and undefined yield null; null
coerces to 0; booleans coerce to 0/1.  Note that the infinities are NOT
rejected: only `Number.isNaN` is checked. -/
def toNumberX : JSValX → Option JSNum
  | .num .nan => none
  | .num v => some v
  | .null => some (.fin 0)
  | .undef => none
  | .bool b => some (.fin (if b then 1 else 0))

/-- The `probabilities` object of a raw payload in the extended model. -/
structure RawProbsX where
  home : JSValX := .undef
  draw : JSValX := .undef
  away : JSValX := .undef
deriving DecidableEq

/-- The `betting_advice` object of a raw payload in the extended model. -/
structure RawAdviceX where
  recommendation : Option String := none
  confidence : JSValX := .undef
  reasoning : Option String := none
deriving DecidableEq

/-- A raw generator payload in the extended model. -/
structure RawPayloadX where
  match_id : Option ℤ := none
  prediction : Option String := none
  probabilities : Option RawProbsX := none
  explanation : Option String := none
  betting_advice : Option RawAdviceX := none
  engine : Option String := none
deriving DecidableEq

/-- The probability triple of a validated payload in the extended model:
each component is a number value class (the code can produce NaN here). -/
structure ProbsX where
  home : JSNum
  draw : JSNum
  away : JSNum
deriving DecidableEq

/-- The betting advice of a validated payload in the extended model. -/
structure BettingAdviceX where
  recommendation : String
  confidence : JSNum
  reasoning : String
deriving DecidableEq

/-- The prediction produced by the validator in the extended model. -/
structure PredictionX where
  match_id : ℤ
  prediction : String
  probabilities : ProbsX
  explanation : String
  betting_advice : BettingAdviceX
deriving DecidableEq

/-- part_000 lines 604-640 `normalizePrediction(payload, matchId)` over the
extended number model, with the guard `!total || total <= 0` kept verbatim
(`!total` catches 0 and NaN totals, `total <= 0` catches negative and
-Infinity totals; a +Infinity total passes). -/
def normalizePredictionX (payload : Option RawPayloadX) (matchId : ℤ) :
    Option PredictionX :=
  match payload with
  | none => none
  | some payload =>
    let probs := payload.probabilities.getD {}
    match toNumberX probs.home, toNumberX probs.draw, toNumberX probs.away with
    | some probHome, some probDraw, some probAway =>
      let total := addN (addN probHome probDraw) probAway
      if !(truthyN total) || leZeroN total then none
      else
        let normalized : ProbsX :=
          ⟨roundN (divN probHome total), roundN (divN probDraw total),
           roundN (divN probAway total)⟩
        let bettingAdvice := payload.betting_advice.getD {}
        let safeConfidence : JSNum :=
          match toNumberX bettingAdvice.confidence with
          | none => .fin 0
          | some c => roundN c
        some
          { match_id := payload.match_id.getD matchId
            prediction := payload.prediction.getD ("Unentschieden")
            probabilities := normalized
            explanation := payload.explanation.getD ("Keine Erklaerung vorhanden.")
            betting_advice :=
              { recommendation := bettingAdvice.recommendation.getD ("Keine Empfehlung")
                confidence := safeConfidence
                reasoning := bettingAdvice.reasoning.getD ("Keine Begruendung vorhanden.") } }
    | _, _, _ => none

/-- Embed a finite-fragment value into the extended domain. -/
def JSVal.toX : JSVal → JSValX
  | .num q => .num (.fin q)
  | .nan => .num .nan
  | .null => .null
  | .undef => .undef
  | .bool b => .bool b

/-- Embed a finite-fragment probabilities object. -/
def RawProbs.toX (p : RawProbs) : RawProbsX :=
  ⟨p.home.toX, p.draw.toX, p.away.toX⟩

/-- Embed a finite-fragment betting-advice object. -/
def RawAdvice.toX (a : RawAdvice) : RawAdviceX :=
  ⟨a.recommendation, a.confidence.toX, a.reasoning⟩

/-- Embed a finite-fragment raw payload. -/
def RawPayload.toX (p : RawPayload) : RawPayloadX :=
  { match_id := p.match_id
    prediction := p.prediction
    probabilities := p.probabilities.map RawProbs.toX
    explanation := p.explanation
    betting_advice := p.betting_advice.map RawAdvice.toX
    engine := p.engine }

/-- Embed a finite probability triple. -/
def Probs.toX (p : Probs) : ProbsX := ⟨.fin p.home, .fin p.draw, .fin p.away⟩

/-- Embed finite betting advice. -/
def BettingAdvice.toX (a : BettingAdvice) : BettingAdviceX :=
  ⟨a.recommendation, .fin a.confidence, a.reasoning⟩

/-- Embed a finite validated prediction. -/
def Prediction.toX (c : Prediction) : PredictionX :=
  { match_id := c.match_id
    prediction := c.prediction
    probabilities := c.probabilities.toX
    explanation := c.explanation
    betting_advice := c.betting_advice.toX }

/-! ### Helper lemmas -/

theorem round_zero : round 0 = 0 := by
  with_unfolding_all rfl

theorem round_mem_unit {s : ℚ} (h0 : 0 ≤ s) (h1 : s ≤ 1) :
    0 ≤ round s ∧ round s ≤ 1 := by
  unfold round
  constructor
  · apply div_nonneg _ (by norm_num)
    have hfl : (0 : ℤ) ≤ ⌊s * 100 + 1 / 2⌋ := by
      apply Int.le_floor.mpr
      push_cast
      linarith
    exact_mod_cast hfl
  · rw [div_le_one (by norm_num : (0 : ℚ) < 100)]
    have hfl := Int.floor_le (s * 100 + 1 / 2)
    have hb : ⌊s * 100 + 1 / 2⌋ ≤ 100 := by
      by_contra hc
      push_neg at hc
      have : (101 : ℚ) ≤ (⌊s * 100 + 1 / 2⌋ : ℚ) := by exact_mod_cast hc
      linarith
    exact_mod_cast hb

theorem round_sum_close {s1 s2 s3 : ℚ} (h : s1 + s2 + s3 = 1) :
    |round s1 + round s2 + round s3 - 1| ≤ 1 / 100 := by
  unfold round
  have l1 : (⌊s1 * 100 + 1 / 2⌋ : ℚ) ≤ s1 * 100 + 1 / 2 := Int.floor_le _
  have l2 : (⌊s2 * 100 + 1 / 2⌋ : ℚ) ≤ s2 * 100 + 1 / 2 := Int.floor_le _
  have l3 : (⌊s3 * 100 + 1 / 2⌋ : ℚ) ≤ s3 * 100 + 1 / 2 := Int.floor_le _
  have g1 : s1 * 100 + 1 / 2 - 1 < (⌊s1 * 100 + 1 / 2⌋ : ℚ) := Int.sub_one_lt_floor _
  have g2 : s2 * 100 + 1 / 2 - 1 < (⌊s2 * 100 + 1 / 2⌋ : ℚ) := Int.sub_one_lt_floor _
  have g3 : s3 * 100 + 1 / 2 - 1 < (⌊s3 * 100 + 1 / 2⌋ : ℚ) := Int.sub_one_lt_floor _
  have hle : ⌊s1 * 100 + 1 / 2⌋ + ⌊s2 * 100 + 1 / 2⌋ + ⌊s3 * 100 + 1 / 2⌋ ≤ 101 := by
    by_contra hc
    push_neg at hc
    have : (102 : ℚ) ≤
        ((⌊s1 * 100 + 1 / 2⌋ + ⌊s2 * 100 + 1 / 2⌋ + ⌊s3 * 100 + 1 / 2⌋ : ℤ) : ℚ) := by
      exact_mod_cast hc
    push_cast at this
    linarith
  have hge : 99 ≤ ⌊s1 * 100 + 1 / 2⌋ + ⌊s2 * 100 + 1 / 2⌋ + ⌊s3 * 100 + 1 / 2⌋ := by
    by_contra hc
    push_neg at hc
    have : ((⌊s1 * 100 + 1 / 2⌋ + ⌊s2 * 100 + 1 / 2⌋ + ⌊s3 * 100 + 1 / 2⌋ : ℤ) : ℚ) ≤ 98 := by
      exact_mod_cast Int.lt_add_one_iff.mp hc
    push_cast at this
    linarith
  have hleQ : ((⌊s1 * 100 + 1 / 2⌋ + ⌊s2 * 100 + 1 / 2⌋ + ⌊s3 * 100 + 1 / 2⌋ : ℤ) : ℚ) ≤ 101 := by
    exact_mod_cast hle
  have hgeQ : (99 : ℚ) ≤ ((⌊s1 * 100 + 1 / 2⌋ + ⌊s2 * 100 + 1 / 2⌋ + ⌊s3 * 100 + 1 / 2⌋ : ℤ) : ℚ) := by
    exact_mod_cast hge
  push_cast at hleQ hgeQ
  rw [abs_le]
  constructor <;> linarith

/-! ### Claim C1: probability normalization -/

/-- A payload whose parsed probabilities are finite and have a positive sum,
but with a negative component. -/
def negProbPayload : RawPayload :=
  { probabilities := some { home := .num (-1), draw := .num 2, away := .num 1 } }

/-- Claim C1, counterexample: the payload `{home: -1, draw: 2, away: 1}` has
finite probabilities with positive sum 2, yet the normalizer returns a
prediction whose home component is -1/2, outside [0, 1].  The claim as
stated (components always in [0, 1] for any finite, not-all-zero triple) is
therefore false on the code. -/
theorem normalizePrediction_negative_component :
    (normalizePrediction (some negProbPayload) 1).map (fun c => c.probabilities.home) =
      some (-(1 / 2)) ∧
    ¬ (0 : ℚ) ≤ -(1 / 2) := by
  constructor
  · with_unfolding_all rfl
  · norm_num

/-- Claim C1 (amended: the inputs must also be non-negative): for a payload
whose probability fields parse to finite non-negative numbers with positive
sum, `normalizePrediction` returns a prediction whose triple is each input
divided by the sum and rounded to 2 decimals, the triple sums to 1 within
1/100, and each component lies in [0, 1]. -/
theorem normalizePrediction_nonneg (p : RawPayload) (mid : ℤ) (h d a : ℚ)
    (hh : toNumber (p.probabilities.getD {}).home = some h)
    (hd : toNumber (p.probabilities.getD {}).draw = some d)
    (ha : toNumber (p.probabilities.getD {}).away = some a)
    (hpos : 0 < h + d + a) (h0 : 0 ≤ h) (d0 : 0 ≤ d) (a0 : 0 ≤ a) :
    ∃ c, normalizePrediction (some p) mid = some c ∧
      c.probabilities = ⟨round (h / (h + d + a)), round (d / (h + d + a)),
        round (a / (h + d + a))⟩ ∧
      |c.probabilities.home + c.probabilities.draw + c.probabilities.away - 1| ≤ 1 / 100 ∧
      0 ≤ c.probabilities.home ∧ c.probabilities.home ≤ 1 ∧
      0 ≤ c.probabilities.draw ∧ c.probabilities.draw ≤ 1 ∧
      0 ≤ c.probabilities.away ∧ c.probabilities.away ≤ 1 := by
  have hne : ¬ (h + d + a ≤ 0) := not_le.mpr hpos
  have hb1 := round_mem_unit (div_nonneg h0 hpos.le) ((div_le_one hpos).mpr (by linarith))
  have hb2 := round_mem_unit (div_nonneg d0 hpos.le) ((div_le_one hpos).mpr (by linarith))
  have hb3 := round_mem_unit (div_nonneg a0 hpos.le) ((div_le_one hpos).mpr (by linarith))
  have hsum : h / (h + d + a) + d / (h + d + a) + a / (h + d + a) = 1 := by
    rw [div_add_div_same, div_add_div_same, div_self (ne_of_gt hpos)]
  have hclose := round_sum_close hsum
  have heq : normalizePrediction (some p) mid = some
      { match_id := p.match_id.getD mid
        prediction := p.prediction.getD ("Unentschieden")
        probabilities := ⟨round (h / (h + d + a)), round (d / (h + d + a)),
          round (a / (h + d + a))⟩
        explanation := p.explanation.getD ("Keine Erklaerung vorhanden.")
        betting_advice :=
          { recommendation := (p.betting_advice.getD {}).recommendation.getD ("Keine Empfehlung")
            confidence :=
              match toNumber (p.betting_advice.getD {}).confidence with
              | none => 0
              | some c => round c
            reasoning := (p.betting_advice.getD {}).reasoning.getD ("Keine Begruendung vorhanden.") } } := by
    simp only [normalizePrediction]
    rw [hh, hd, ha]
    simp only [if_neg hne]
  exact ⟨_, heq, rfl, hclose, hb1.1, hb1.2, hb2.1, hb2.2, hb3.1, hb3.2⟩

/-- A well-formed payload used as concrete input for the witnesses. -/
def unitProbPayload : RawPayload :=
  { probabilities := some { home := .num 1, draw := .num 1, away := .num 2 } }

/-- Witness for `normalizePrediction_nonneg` at the payload
`{home: 1, draw: 1, away: 2}`. -/
theorem normalizePrediction_nonneg_witness :
    (0 : ℚ) < 1 + 1 + 2 ∧
    ∃ c, normalizePrediction (some unitProbPayload) 9 = some c ∧
      c.probabilities = ⟨round (1 / (1 + 1 + 2)), round (1 / (1 + 1 + 2)),
        round (2 / (1 + 1 + 2))⟩ ∧
      |c.probabilities.home + c.probabilities.draw + c.probabilities.away - 1| ≤ 1 / 100 ∧
      0 ≤ c.probabilities.home ∧ c.probabilities.home ≤ 1 ∧
      0 ≤ c.probabilities.draw ∧ c.probabilities.draw ≤ 1 ∧
      0 ≤ c.probabilities.away ∧ c.probabilities.away ≤ 1 :=
  ⟨by norm_num,
   normalizePrediction_nonneg unitProbPayload 9 1 1 2 rfl rfl rfl
     (by norm_num) (by norm_num) (by norm_num) (by norm_num)⟩

/-! ### The normalizer on the finite fragment and on the full domain
(claim C3) -/

/-- On the finite fragment, `normalizePrediction` returns null whenever one
of the three probability fields fails to parse to a number, or the parsed
probabilities have a non-positive sum.  (Stepping stone; claim C3 itself is
settled over the extended model below, where ±Infinity coercions exist.) -/
theorem normalizePrediction_rejects_degenerate (p : RawPayload) (mid : ℤ)
    (hbad : toNumber (p.probabilities.getD {}).home = none ∨
      toNumber (p.probabilities.getD {}).draw = none ∨
      toNumber (p.probabilities.getD {}).away = none ∨
      (∀ h d a : ℚ, toNumber (p.probabilities.getD {}).home = some h →
        toNumber (p.probabilities.getD {}).draw = some d →
        toNumber (p.probabilities.getD {}).away = some a →
        h + d + a ≤ 0)) :
    normalizePrediction (some p) mid = none := by
  simp only [normalizePrediction]
  rcases hH : toNumber (p.probabilities.getD {}).home with _ | hq <;>
    rcases hD : toNumber (p.probabilities.getD {}).draw with _ | dq <;>
      rcases hA : toNumber (p.probabilities.getD {}).away with _ | aq <;>
        simp only [hH, hD, hA]
  rcases hbad with h1 | h2 | h3 | h4
  · simp only [hH] at h1
    exact absurd h1 (by simp)
  · simp only [hD] at h2
    exact absurd h2 (by simp)
  · simp only [hA] at h3
    exact absurd h3 (by simp)
  · exact if_pos (h4 hq dq aq hH hD hA)

/-- A payload whose home probability is undefined. -/
def undefProbPayload : RawPayload :=
  { probabilities := some { home := .undef, draw := .num 1, away := .num 1 } }

/-- A payload whose parsed probabilities sum to zero. -/
def zeroSumPayload : RawPayload :=
  { probabilities := some { home := .num 1, draw := .num (-1), away := .num 0 } }

/-- Witness for `normalizePrediction_rejects_degenerate`: an unparseable
home field and a zero-sum triple both yield null. -/
theorem normalizePrediction_rejects_degenerate_witness :
    toNumber (undefProbPayload.probabilities.getD {}).home = none ∧
    normalizePrediction (some undefProbPayload) 5 = none ∧
    normalizePrediction (some zeroSumPayload) 5 = none :=
  ⟨rfl,
   normalizePrediction_rejects_degenerate undefProbPayload 5 (Or.inl rfl),
   normalizePrediction_rejects_degenerate zeroSumPayload 5 (Or.inr (Or.inr (Or.inr (by
     intro h d a hh hd ha
     simp only [zeroSumPayload, Option.getD_some, toNumber, Option.some.injEq] at hh hd ha
     rw [← hh, ← hd, ← ha]
     norm_num))))⟩

/-- The extended `toNumber` agrees with the finite-fragment one on embedded
values. -/
theorem toNumberX_toX (v : JSVal) :
    toNumberX v.toX = (toNumber v).map JSNum.fin := by
  cases v <;> rfl

/-- For a finite total, the verbatim guard `!total || total <= 0` is
exactly the non-positivity test. -/
theorem guard_fin (s : ℚ) :
    (!(truthyN (.fin s)) || leZeroN (.fin s)) = true ↔ s ≤ 0 := by
  simp only [truthyN, leZeroN, Bool.not_not, Bool.or_eq_true, beq_iff_eq, decide_eq_true_eq]
  constructor
  · rintro (rfl | h)
    · exact le_refl 0
    · exact h
  · intro h
    exact Or.inr h

/-- The extended validator restricted to payloads without non-finite fields
computes exactly what the ℚ-level `normalizePrediction` computes: the
finite-fragment model used by the other claims is the restriction of the
faithful one. -/
theorem normalizePredictionX_agrees (p : RawPayload) (mid : ℤ) :
    normalizePredictionX (some p.toX) mid =
      (normalizePrediction (some p) mid).map Prediction.toX := by
  have hprobs : (RawPayload.toX p).probabilities.getD {} = (p.probabilities.getD {}).toX := by
    rcases hp : p.probabilities with _ | probs <;>
      simp [RawPayload.toX, hp, RawProbs.toX, JSVal.toX]
  have hadv : (RawPayload.toX p).betting_advice.getD {} = (p.betting_advice.getD {}).toX := by
    rcases ha : p.betting_advice with _ | adv <;>
      simp [RawPayload.toX, ha, RawAdvice.toX, JSVal.toX]
  simp only [normalizePredictionX, normalizePrediction, hprobs, hadv]
  rw [show ((p.probabilities.getD {}).toX).home = ((p.probabilities.getD {}).home).toX from rfl]
  rw [show ((p.probabilities.getD {}).toX).draw = ((p.probabilities.getD {}).draw).toX from rfl]
  rw [show ((p.probabilities.getD {}).toX).away = ((p.probabilities.getD {}).away).toX from rfl]
  rw [toNumberX_toX, toNumberX_toX, toNumberX_toX]
  rcases hH : toNumber (p.probabilities.getD {}).home with _ | h
  · rfl
  · rcases hD : toNumber (p.probabilities.getD {}).draw with _ | d
    · rfl
    · rcases hA : toNumber (p.probabilities.getD {}).away with _ | a
      · rfl
      · simp only [Option.map_some']
        have htot : addN (addN (.fin h) (.fin d)) (.fin a) = .fin (h + d + a) := rfl
        rw [htot]
        by_cases hs : h + d + a ≤ 0
        · rw [if_pos ((guard_fin _).mpr hs), if_pos hs]
          rfl
        · have hg : ¬ ((!(truthyN (.fin (h + d + a))) || leZeroN (.fin (h + d + a))) = true) :=
            fun hgt => hs ((guard_fin _).mp hgt)
          rw [if_neg hg, if_neg hs]
          have hsne : h + d + a ≠ 0 := fun he => hs (le_of_eq he)
          simp only [Option.map_some', divN, roundN, if_neg hsne]
          rw [show ((RawAdvice.toX (p.betting_advice.getD {})).confidence) =
            ((p.betting_advice.getD {}).confidence).toX from rfl]
          rw [toNumberX_toX]
          rcases hC : toNumber (p.betting_advice.getD {}).confidence with _ | c
          · rfl
          · rfl

/-- A payload whose home probability coerces to +Infinity: JSON-expressible
as the string (or numeric literal) `1e999`, for which `Number()` yields
Infinity. -/
def infProbPayload : RawPayloadX :=
  { probabilities := some
      { home := .num .posInf, draw := .num (.fin 1), away := .num (.fin 1) } }

/-- Claim C3, counterexample: the home field parses to +Infinity - it does
NOT parse to a finite number - yet the validator returns a non-null
prediction (the source `toNumber` rejects only NaN, and a +Infinity total
passes `!total || total <= 0`), whose home probability component is even
NaN (Infinity/Infinity).  The claim that null is returned whenever a
probability field fails to parse to a finite number is therefore false on
the code. -/
theorem normalizePredictionX_accepts_infinite :
    toNumberX (infProbPayload.probabilities.getD {}).home = some .posInf ∧
    (∀ q : ℚ, toNumberX (infProbPayload.probabilities.getD {}).home ≠ some (.fin q)) ∧
    normalizePredictionX (some infProbPayload) 1 ≠ none ∧
    (normalizePredictionX (some infProbPayload) 1).map (fun c => c.probabilities.home) =
      some .nan := by
  refine ⟨rfl, ?_, ?_, ?_⟩
  · intro q h
    simp [infProbPayload, toNumberX] at h
  · have hval : (normalizePredictionX (some infProbPayload) 1).isSome = true := by
      with_unfolding_all rfl
    intro h
    rw [h] at hval
    simp at hval
  · with_unfolding_all rfl

/-- Claim C3 (amended: the normalizer - total by construction - returns
null exactly when one of the three probability fields coerces to NaN or
undefined, or the parsed values fail the verbatim guard
`!total || total <= 0`, i.e. the total is NaN, zero, negative or
-Infinity; a field coercing to ±Infinity is NOT rejected by the parse
step, and a triple with a +Infinity total passes the guard and yields a
non-null prediction). -/
theorem normalizePredictionX_null_iff (p : RawPayloadX) (mid : ℤ) :
    normalizePredictionX (some p) mid = none ↔
      (toNumberX (p.probabilities.getD {}).home = none ∨
       toNumberX (p.probabilities.getD {}).draw = none ∨
       toNumberX (p.probabilities.getD {}).away = none ∨
       (∃ v1 v2 v3, toNumberX (p.probabilities.getD {}).home = some v1 ∧
         toNumberX (p.probabilities.getD {}).draw = some v2 ∧
         toNumberX (p.probabilities.getD {}).away = some v3 ∧
         (!(truthyN (addN (addN v1 v2) v3)) || leZeroN (addN (addN v1 v2) v3)) = true)) := by
  simp only [normalizePredictionX]
  rcases hH : toNumberX (p.probabilities.getD {}).home with _ | v1 <;>
    rcases hD : toNumberX (p.probabilities.getD {}).draw with _ | v2 <;>
      rcases hA : toNumberX (p.probabilities.getD {}).away with _ | v3 <;>
        simp only [hH, hD, hA]
  · simp
  · simp
  · simp
  · simp
  · simp
  · simp
  · simp
  · by_cases hg : (!(truthyN (addN (addN v1 v2) v3)) || leZeroN (addN (addN v1 v2) v3)) = true
    · rw [if_pos hg]
      constructor
      · intro _
        exact Or.inr (Or.inr (Or.inr ⟨v1, v2, v3, rfl, rfl, rfl, hg⟩))
      · intro _
        rfl
    · rw [if_neg hg]
      constructor
      · intro h
        cases h
      · rintro (h1 | h2 | h3 | ⟨w1, w2, w3, e1, e2, e3, hgw⟩)
        · cases h1
        · cases h2
        · cases h3
        · injection e1 with e1
          injection e2 with e2
          injection e3 with e3
          subst e1
          subst e2
          subst e3
          exact absurd hgw hg

/-- A payload whose home probability coerces to NaN (a non-numeric
string). -/
def nanProbPayload : RawPayloadX :=
  { probabilities := some
      { home := .num .nan, draw := .num (.fin 1), away := .num (.fin 1) } }

/-- Witness for `normalizePredictionX_null_iff`: a NaN-coercing home field
yields null. -/
theorem normalizePredictionX_null_iff_witness :
    toNumberX (nanProbPayload.probabilities.getD {}).home = none ∧
    normalizePredictionX (some nanProbPayload) 4 = none :=
  ⟨rfl, (normalizePredictionX_null_iff nanProbPayload 4).mpr (Or.inl rfl)⟩

/-! ### Claim C8: confidence handling -/

/-- A payload with valid probabilities and a numeric confidence of 2. -/
def overConfPayload : RawPayload :=
  { probabilities := some { home := .num 1, draw := .num 1, away := .num 2 }
    betting_advice := some { confidence := .num 2 } }

/-- Claim C8, counterexample: the validator does not clamp the confidence;
a payload declaring confidence 2 is returned with confidence 2, which is
outside [0, 1].  The claim that every returned prediction has confidence in
[0, 1] is therefore false on the code. -/
theorem normalizePrediction_confidence_unclamped :
    (normalizePrediction (some overConfPayload) 1).map (fun c => c.betting_advice.confidence) =
      some 2 ∧
    ¬ ((2 : ℚ) ≤ 1) := by
  constructor
  · with_unfolding_all rfl
  · norm_num

/-- Claim C8 (amended: the validator defaults a non-numeric confidence to 0
and rounds a numeric one to 2 decimals without clamping, so its output lies
in [0, 1] exactly when the incoming numeric value does; the rule-based
fallback's confidence always lies in [0, 1]). -/
theorem bettingConfidence_amended :
    (∀ (p : RawPayload) (mid : ℤ) (c : Prediction),
        normalizePrediction (some p) mid = some c →
        (c.betting_advice.confidence =
          match toNumber ((p.betting_advice.getD {}).confidence) with
          | none => 0
          | some q => round q) ∧
        (∀ q : ℚ, toNumber ((p.betting_advice.getD {}).confidence) = some q →
          0 ≤ q → q ≤ 1 →
          0 ≤ c.betting_advice.confidence ∧ c.betting_advice.confidence ≤ 1)) ∧
    (∀ (m : MatchRecord) (f : Features) (jH jA jD : ℚ),
      0 ≤ (simpleRulePredict m f jH jA jD).betting_advice.confidence ∧
      (simpleRulePredict m f jH jA jD).betting_advice.confidence ≤ 1) := by
  constructor
  · intro p mid c hc
    simp only [normalizePrediction] at hc
    rcases hH : toNumber (p.probabilities.getD {}).home with _ | hq <;>
      rcases hD : toNumber (p.probabilities.getD {}).draw with _ | dq <;>
        rcases hA : toNumber (p.probabilities.getD {}).away with _ | aq <;>
          simp only [hH, hD, hA] at hc
    all_goals try cases hc
    by_cases ht : hq + dq + aq ≤ 0
    · rw [if_pos ht] at hc
      cases hc
    · rw [if_neg ht] at hc
      have hcc := Option.some.inj hc
      subst hcc
      constructor
      · rfl
      · intro q hqv q0 q1
        simp only [hqv]
        exact round_mem_unit q0 q1
  · intro m f jH jA jD
    simp only [simpleRulePredict]
    split_ifs with h1 h2 h3
    · refine round_mem_unit (le_min (by norm_num) (by positivity)) ?_
      calc min (85 / 100 : ℚ) (1 / 2 + |_|) ≤ 85 / 100 := min_le_left _ _
        _ ≤ 1 := by norm_num
    · refine round_mem_unit (le_min (by norm_num) (by positivity)) ?_
      calc min (85 / 100 : ℚ) (1 / 2 + |_|) ≤ 85 / 100 := min_le_left _ _
        _ ≤ 1 := by norm_num
    · exact round_mem_unit (by norm_num) (by norm_num)
    · exact round_mem_unit (by norm_num) (by norm_num)

/-- A payload with valid probabilities and an in-range numeric confidence. -/
def confPayload : RawPayload :=
  { probabilities := some { home := .num 1, draw := .num 1, away := .num 2 }
    betting_advice := some { confidence := .num (7 / 10) } }

/-- A concrete match record used by witnesses. -/
def sampleMatch : MatchRecord := { match_id := 1, sport := "football" }

/-- Concrete features realizing the decisive-home-edge scenario of the
spec. -/
def decisiveFeatures : Features :=
  { sport := "football", home_form := 8 / 10, away_form := 2 / 10,
    home_goals_avg := 5 / 2, away_goals_avg := 1 }

/-- Witness for `bettingConfidence_amended`: a confidence of 7/10 survives
in [0, 1], and a concrete rule-based prediction has confidence in [0, 1]. -/
theorem bettingConfidence_amended_witness :
    (∃ c, normalizePrediction (some confPayload) 3 = some c ∧
      0 ≤ c.betting_advice.confidence ∧ c.betting_advice.confidence ≤ 1) ∧
    0 ≤ (simpleRulePredict sampleMatch decisiveFeatures 0 0 0).betting_advice.confidence ∧
    (simpleRulePredict sampleMatch decisiveFeatures 0 0 0).betting_advice.confidence ≤ 1 := by
  obtain ⟨c, hc⟩ : ∃ c, normalizePrediction (some confPayload) 3 = some c :=
    ⟨_, by with_unfolding_all rfl⟩
  obtain ⟨hconf, hbnd⟩ := bettingConfidence_amended.1 confPayload 3 c hc
  have h2 := bettingConfidence_amended.2 sampleMatch decisiveFeatures 0 0 0
  refine ⟨⟨c, hc, ?_⟩, h2.1, h2.2⟩
  exact hbnd (7 / 10) rfl (by norm_num) (by norm_num)

/-! ### Claim C6: rule-based outcome selection -/

/-- Features whose score 1/3 exceeds the 3/10 threshold but whose raw
confidence 1/2 + 1/3 = 5/6 is not representable in 2 decimals. -/
def narrowFeatures : Features :=
  { sport := "football", home_form := 1 / 3, away_form := 0,
    home_goals_avg := 1, away_goals_avg := 1 }

/-- Claim C6, counterexample: for features with score 1/3 the claim says the
confidence is `min(0.85, 0.5 + |score|) = 5/6`, but the code stores the
2-decimal rounding 83/100, which differs.  The claim as stated (confidence
equals the unrounded minimum) is therefore false on the code. -/
theorem simpleRulePredict_confidence_rounded_cex :
    ruleScore narrowFeatures > 3 / 10 ∧
    min (85 / 100 : ℚ) (1 / 2 + |ruleScore narrowFeatures|) = 5 / 6 ∧
    (simpleRulePredict sampleMatch narrowFeatures 0 0 0).betting_advice.confidence = 83 / 100 ∧
    (83 / 100 : ℚ) ≠ 5 / 6 := by
  refine ⟨by norm_num [ruleScore, narrowFeatures], ?_, by with_unfolding_all rfl, by norm_num⟩
  with_unfolding_all rfl

/-- Claim C6 (amended: the stored confidence is the 2-decimal rounding of
`min(0.85, 0.5 + |score|)`, and 0.6 in the no-edge branch): score above 3/10
selects the home-win label, below -3/10 the away-win label, otherwise the
sport-specific no-edge labels with confidence 0.6. -/
theorem simpleRulePredict_branches (m : MatchRecord) (f : Features) (jH jA jD : ℚ) :
    (ruleScore f > 3 / 10 →
      (simpleRulePredict m f jH jA jD).prediction = "Heimsieg" ∧
      (simpleRulePredict m f jH jA jD).betting_advice.recommendation = "Heimsieg" ∧
      (simpleRulePredict m f jH jA jD).betting_advice.confidence =
        round (min (85 / 100) (1 / 2 + |ruleScore f|))) ∧
    (ruleScore f < -(3 / 10) →
      (simpleRulePredict m f jH jA jD).prediction = "Auswaertssieg" ∧
      (simpleRulePredict m f jH jA jD).betting_advice.recommendation = "Auswaertssieg" ∧
      (simpleRulePredict m f jH jA jD).betting_advice.confidence =
        round (min (85 / 100) (1 / 2 + |ruleScore f|))) ∧
    (-(3 / 10) ≤ ruleScore f → ruleScore f ≤ 3 / 10 →
      (simpleRulePredict m f jH jA jD).prediction = (SPORT_PROMPT_META m.sport).drawLabel ∧
      (simpleRulePredict m f jH jA jD).betting_advice.recommendation =
        (if m.sport = "basketball" then "Spread meiden" else "Unter 2.5 Tore") ∧
      (simpleRulePredict m f jH jA jD).betting_advice.confidence = 6 / 10) := by
  have h610 : round (6 / 10 : ℚ) = 6 / 10 := by with_unfolding_all rfl
  refine ⟨?_, ?_, ?_⟩
  · intro h
    unfold ruleScore at h
    simp only [simpleRulePredict, if_pos h, ruleScore]
    exact ⟨trivial, trivial, trivial⟩
  · intro h
    unfold ruleScore at h
    have hnot : ¬ ((f.home_form - f.away_form) + (f.home_goals_avg - f.away_goals_avg) > 3 / 10) := by
      push_neg
      linarith
    simp only [simpleRulePredict, if_neg hnot, if_pos h, ruleScore]
    exact ⟨trivial, trivial, trivial⟩
  · intro hge hle
    unfold ruleScore at hge hle
    have hnot1 : ¬ ((f.home_form - f.away_form) + (f.home_goals_avg - f.away_goals_avg) > 3 / 10) := by
      push_neg
      linarith
    have hnot2 : ¬ ((f.home_form - f.away_form) + (f.home_goals_avg - f.away_goals_avg) < -(3 / 10)) := by
      push_neg
      linarith
    simp only [simpleRulePredict, if_neg hnot1, if_neg hnot2]
    exact ⟨trivial, trivial, h610⟩

/-- Witness for `simpleRulePredict_branches` at the decisive-home-edge
scenario of the spec: score 21/10, label Heimsieg, confidence 0.85. -/
theorem simpleRulePredict_branches_witness :
    ruleScore decisiveFeatures > 3 / 10 ∧
    (simpleRulePredict sampleMatch decisiveFeatures 0 0 0).prediction = "Heimsieg" ∧
    (simpleRulePredict sampleMatch decisiveFeatures 0 0 0).betting_advice.confidence = 85 / 100 := by
  have h : ruleScore decisiveFeatures > 3 / 10 := by norm_num [ruleScore, decisiveFeatures]
  obtain ⟨hp, hr, hc⟩ := (simpleRulePredict_branches sampleMatch decisiveFeatures 0 0 0).1 h
  refine ⟨h, hp, ?_⟩
  rw [hc]
  with_unfolding_all rfl

/-! ### Claim C9: disjoint id ranges -/

/-- Claim C9: for a non-negative raw provider id, the basketball composed id
is the raw id plus 5000000000 while the football composed id is the raw id
itself, so a basketball id never equals the composed id of a football id
below the offset. -/
theorem composeMatchId_disjoint (r r' : ℚ) (hr : 0 ≤ r) (hr' : r' < 5000000000) :
    composeMatchId (.num r) ("basketball") = some (5000000000 + r) ∧
    composeMatchId (.num r) ("football") = some r ∧
    composeMatchId (.num r) ("basketball") ≠ composeMatchId (.num r') ("football") := by
  have hb : composeMatchId (.num r) ("basketball") = some (5000000000 + r) := by
    simp [composeMatchId, toNumber, MATCH_ID_OFFSETS]
  have hf : ∀ x : ℚ, composeMatchId (.num x) ("football") = some x := fun x => by
    simp [composeMatchId, toNumber, MATCH_ID_OFFSETS]
  refine ⟨hb, hf r, ?_⟩
  rw [hb, hf r']
  intro hcontra
  have := Option.some.inj hcontra
  linarith

/-- Witness for `composeMatchId_disjoint` at raw id 100 for both sports. -/
theorem composeMatchId_disjoint_witness :
    (0 : ℚ) ≤ 100 ∧ (100 : ℚ) < 5000000000 ∧
    composeMatchId (.num 100) ("basketball") = some (5000000000 + 100) ∧
    composeMatchId (.num 100) ("football") = some 100 ∧
    composeMatchId (.num 100) ("basketball") ≠ composeMatchId (.num 100) ("football") := by
  have h := composeMatchId_disjoint 100 100 (by norm_num) (by norm_num)
  exact ⟨by norm_num, by norm_num, h.1, h.2.1, h.2.2⟩

/-! ### Claims C4, C5, C10: the Feature Engine -/

namespace FeatureEngine

/-- A row that wins for the team implies both scores resolve. -/
theorem winFor_hasScores {t : String} {m : MatchRow} (h : winFor t m = true) :
    hasScores m = true := by
  unfold winFor hasScores at *
  rcases hg : toNumber m.home_goals with _ | x <;>
    rcases ha : toNumber m.away_goals with _ | y <;>
      simp [hg, ha] at h ⊢

/-- The fold of `tallyStep` from an arbitrary accumulator adds the win
count, the score-resolvable game count, and the sum of the team's goals
over the score-resolvable rows. -/
theorem tallyGames_loop (t : String) (rows : List MatchRow) :
    ∀ acc : ℕ × ℕ × ℚ, rows.foldl (tallyStep t) acc =
      (acc.1 + rows.countP (winFor t),
       acc.2.1 + rows.countP hasScores,
       acc.2.2 + ((rows.filter hasScores).map (goalsFor t)).sum) := by
  induction rows with
  | nil => intro acc; simp
  | cons r rs ih =>
    intro acc
    rw [List.foldl_cons, ih]
    rcases hg : toNumber r.home_goals with _ | x <;>
      rcases ha : toNumber r.away_goals with _ | y
    · simp only [tallyStep, hg, ha, List.countP_cons, List.filter_cons, winFor, hasScores]
      simp [hg, ha]
    · simp only [tallyStep, hg, ha, List.countP_cons, List.filter_cons, winFor, hasScores]
      simp [hg, ha]
    · simp only [tallyStep, hg, ha, List.countP_cons, List.filter_cons, winFor, hasScores]
      simp [hg, ha]
    · by_cases hhome : r.home_team == some t
      · simp only [tallyStep, hg, ha, hhome, if_true, List.countP_cons, List.filter_cons,
          winFor, hasScores, goalsFor]
        by_cases hwin : x > y
        · simp [hg, ha, hhome, hwin, Prod.ext_iff]
          refine ⟨by omega, by omega, ?_⟩
          simp [goalsFor, hhome, hg]
          ring
        · simp [hg, ha, hhome, hwin, Prod.ext_iff]
          refine ⟨by omega, ?_⟩
          simp [goalsFor, hhome, hg]
          ring
      · simp only [tallyStep, hg, ha, hhome, if_false, List.countP_cons, List.filter_cons,
          winFor, hasScores, goalsFor]
        by_cases hwin : y > x
        · simp [hg, ha, hhome, hwin, Prod.ext_iff]
          refine ⟨by omega, by omega, ?_⟩
          simp [goalsFor, hhome, ha]
          ring
        · simp [hg, ha, hhome, hwin, Prod.ext_iff]
          refine ⟨by omega, ?_⟩
          simp [goalsFor, hhome, ha]
          ring

/-- The loop of `calcTeamStats` computes counts and sums over the kept
rows. -/
theorem tallyGames_eq (t : String) (rows : List MatchRow) :
    tallyGames t rows =
      (rows.countP (winFor t), rows.countP hasScores,
       ((rows.filter hasScores).map (goalsFor t)).sum) := by
  unfold tallyGames
  rw [tallyGames_loop]
  simp

/-- Eleven in-window rows for team A: ten with known scores (one loss on the
oldest day, nine wins), and the most recent one with unknown scores. -/
def borderlineRows : List MatchRow :=
  (List.range 10).map (fun i =>
    { match_id := (i : ℤ), date := some (989 + i), home_team := some ("A"),
      away_team := some ("B"),
      home_goals := some (if i = 0 then 0 else 1),
      away_goals := some (if i = 0 then 1 else 0) })
  ++ [{ match_id := 99, date := some 999, home_team := some ("A"),
        away_team := some ("B"), home_goals := none, away_goals := none }]

/-- Claim C4, counterexample: the code truncates to the 10 most recent
in-window rows BEFORE discarding rows with unknown scores, while the claim
keeps score-resolvable rows first and then truncates.  On `borderlineRows`
the code drops the oldest (lost) game in favour of the score-less most
recent one and reports form 1, scoring average 1; the claimed computation
reports 0.9 and 0.9. -/
theorem calcTeamStats_truncation_cex :
    calcTeamStats borderlineRows (some ("A")) (some 1000) 10 = ⟨1, 1⟩ ∧
    claimTeamStats borderlineRows (some ("A")) (some 1000) 10 = ⟨9 / 10, 9 / 10⟩ ∧
    calcTeamStats borderlineRows (some ("A")) (some 1000) 10 ≠
      claimTeamStats borderlineRows (some ("A")) (some 1000) 10 := by
  have h1 : calcTeamStats borderlineRows (some ("A")) (some 1000) 10 = ⟨1, 1⟩ := by
    with_unfolding_all rfl
  have h2 : claimTeamStats borderlineRows (some ("A")) (some 1000) 10 = ⟨9 / 10, 9 / 10⟩ := by
    with_unfolding_all rfl
  refine ⟨h1, h2, ?_⟩
  rw [h1, h2]
  simp only [ne_eq, TeamStats.mk.injEq, not_and]
  intro hcontra
  norm_num at hcontra

/-- Claim C4 (amended: the window of 10 most recent in-window matches is
taken first, whether or not their scores are known, and the tallies then
range over the score-resolvable rows among those 10): `calcTeamStats`
computes exactly the amended statistic, with `form = wins / max(games, 1)`
and `scoringAvg = round(sum of the team's scores / games)` (0 when no kept
game has resolvable scores). -/
theorem calcTeamStats_eq_amended (rows : List MatchRow) (tn : Option String)
    (ref : Option ℤ) (n : ℕ) :
    calcTeamStats rows tn ref n = amendedTeamStats rows tn ref n := by
  cases tn with
  | none => rfl
  | some t =>
    by_cases ht : t = ""
    · simp [calcTeamStats, amendedTeamStats, ht]
    · simp only [calcTeamStats, amendedTeamStats, if_neg ht]
      generalize hrel : takeLast n ((rows.filter (qualifies t ref (ref.map (· - 365)))).insertionSort
        (fun a b => dateKey a ≤ dateKey b)) = relevant
      rw [tallyGames_eq]
      by_cases he : relevant.isEmpty
      · have hnil : relevant = [] := List.isEmpty_iff.mp he
        rw [if_pos he, hnil]
        simp [TeamStats.mk.injEq]
      · rw [if_neg he]
        simp only [TeamStats.mk.injEq]
        refine ⟨trivial, ?_⟩
        by_cases hg : relevant.countP hasScores = 0
        · simp [hg, round_zero]
        · simp [hg]

/-- Claim C5: a team all of whose recorded matches fail the qualification
filter (wrong team, missing date, on/after the reference date, or outside
the 365-day window) gets the defined default `{form: 0, scoringAvg: 0}`. -/
theorem calcTeamStats_default_of_no_qualifying (rows : List MatchRow) (t : String)
    (ref : Option ℤ) (n : ℕ)
    (h : ∀ mr ∈ rows, qualifies t ref (ref.map (· - 365)) mr = false) :
    calcTeamStats rows (some t) ref n = ⟨0, 0⟩ := by
  by_cases ht : t = ""
  · simp [calcTeamStats, ht]
  · have hfilter : rows.filter (qualifies t ref (ref.map (· - 365))) = [] :=
      List.filter_eq_nil_iff.mpr (fun a ha => by simp [h a ha])
    simp only [calcTeamStats, if_neg ht, hfilter]
    simp [takeLast, List.insertionSort]

/-- A row dated after the reference date. -/
def futureRow : MatchRow :=
  { match_id := 3, date := some 2000, home_team := some ("A"),
    away_team := some ("B"), home_goals := some 1, away_goals := some 0 }

/-- Witness for `calcTeamStats_default_of_no_qualifying`: one future-dated
match yields the default. -/
theorem calcTeamStats_default_of_no_qualifying_witness :
    (∀ mr ∈ [futureRow], qualifies ("A") (some 1000) ((some 1000).map (· - 365)) mr = false) ∧
    calcTeamStats [futureRow] (some ("A")) (some 1000) 10 = ⟨0, 0⟩ :=
  ⟨by decide,
   calcTeamStats_default_of_no_qualifying [futureRow] ("A") (some 1000) 10 (by decide)⟩

/-- Claim C10: the form value always lies in [0, 1] - the win count never
exceeds the score-resolvable game count and the divisor is
`max(games, 1)`. -/
theorem calcTeamStats_form_unit (rows : List MatchRow) (tn : Option String)
    (ref : Option ℤ) (n : ℕ) :
    0 ≤ (calcTeamStats rows tn ref n).form ∧ (calcTeamStats rows tn ref n).form ≤ 1 := by
  cases tn with
  | none => simp [calcTeamStats]
  | some t =>
    by_cases ht : t = ""
    · simp [calcTeamStats, ht]
    · simp only [calcTeamStats, if_neg ht]
      generalize takeLast n ((rows.filter (qualifies t ref (ref.map (· - 365)))).insertionSort
        (fun a b => dateKey a ≤ dateKey b)) = relevant
      by_cases he : relevant.isEmpty
      · rw [if_pos he]
        norm_num
      · rw [if_neg he]
        rw [tallyGames_eq]
        simp only []
        have hmono : relevant.countP (winFor t) ≤ relevant.countP hasScores :=
          List.countP_mono_left (fun a _ hw => winFor_hasScores hw)
        have hden : (0 : ℚ) < ((max (relevant.countP hasScores) 1 : ℕ) : ℚ) := by
          have h1 : 1 ≤ max (relevant.countP hasScores) 1 := le_max_right _ _
          exact_mod_cast Nat.lt_of_lt_of_le Nat.zero_lt_one h1
        constructor
        · exact div_nonneg (Nat.cast_nonneg _) (Nat.cast_nonneg _)
        · rw [div_le_one hden]
          have h2 : relevant.countP (winFor t) ≤ max (relevant.countP hasScores) 1 :=
            le_trans hmono (le_max_left _ _)
          exact_mod_cast h2

end FeatureEngine

/-! ### Claim C2: fallback terminality -/

/-- Claim C2: with both generator tiers unconfigured (falsy environment
values), a contest whose match record resolves and whose features exist
yields the rule-based prediction with engine `rule-based`; the result is a
full prediction (never an error object) and no generator call is
attempted. -/
theorem predictMatch_rule_based (cfg : Config) (env : Env) (matchId : JSVal)
    (jH jA jD : ℚ) (mid : ℚ) (m : MatchRecord) (f : Features)
    (hllama : strTruthy cfg.llamaServerUrl = false)
    (hollama : strTruthy cfg.ollamaModel = false)
    (hparse : toNumber matchId = some mid)
    (hmatch : getMatchRecord env.db.«matches» mid = some m)
    (hfeat : getFeatures ⟨(hydratedState env m).rows, env.db.stats⟩ m.match_id m.sport = some f) :
    predictMatch cfg env matchId jH jA jD =
      (.ok (simpleRulePredict m f jH jA jD), ([] : List GenCall), hydratedState env m) ∧
    (simpleRulePredict m f jH jA jD).engine = "rule-based" := by
  constructor
  · simp only [predictMatch, hparse, hmatch, hfeat, hllama, hollama]
    simp
  · rfl

/-- A concrete stored match row for the C2 witness. -/
def matchRowW : MatchRow :=
  { match_id := 1, sport := some ("football"), date := none,
    home_team := some ("A"), away_team := some ("B"),
    home_team_id := some 7, away_team_id := some 8 }

/-- A concrete stats row realizing `decisiveFeatures`. -/
def statsRowW : StatsRow :=
  { match_id := 1, sport := some ("football"),
    home_form := some (8 / 10), away_form := some (2 / 10),
    home_goals_avg := some (5 / 2), away_goals_avg := some 1 }

/-- A concrete environment with one stored match, its stats row, and
backfill collaborators returning nothing. -/
def envW : Env :=
  { db := { «matches» := [matchRowW], stats := [statsRowW] }
    memo := []
    fetchTeam := fun _ _ _ => []
    fetchH2H := fun _ _ _ _ => [] }

/-- The match record `getMatchRecord` produces for `matchRowW`. -/
def mRecW : MatchRecord :=
  { match_id := 1, sport := "football", date := none, status := none,
    home_team := some ("A"), away_team := some ("B"),
    home_team_id := some 7, away_team_id := some 8 }

/-- Witness for `predictMatch_rule_based` on the concrete environment:
with an unconfigured `Config` the pipeline returns the rule-based
prediction and attempts no generator call. -/
theorem predictMatch_rule_based_witness :
    strTruthy (Config.mk none none).llamaServerUrl = false ∧
    toNumber (.num 1) = some 1 ∧
    getMatchRecord envW.db.«matches» 1 = some mRecW ∧
    getFeatures ⟨(hydratedState envW mRecW).rows, envW.db.stats⟩ mRecW.match_id mRecW.sport =
      some decisiveFeatures ∧
    predictMatch (Config.mk none none) envW (.num 1) 0 0 0 =
      (.ok (simpleRulePredict mRecW decisiveFeatures 0 0 0), ([] : List GenCall),
       hydratedState envW mRecW) ∧
    (simpleRulePredict mRecW decisiveFeatures 0 0 0).engine = "rule-based" := by
  have hmatch : getMatchRecord envW.db.«matches» 1 = some mRecW := by
    with_unfolding_all rfl
  have hfeat : getFeatures ⟨(hydratedState envW mRecW).rows, envW.db.stats⟩ mRecW.match_id
      mRecW.sport = some decisiveFeatures := by
    with_unfolding_all rfl
  have h := predictMatch_rule_based (Config.mk none none) envW (.num 1) 0 0 0 1 mRecW
    decisiveFeatures rfl rfl rfl hmatch hfeat
  exact ⟨rfl, rfl, hmatch, hfeat, h.1, h.2⟩

/-! ### Claim C7: backfill requests of the History Context Builder -/

theorem countTeamCalls_append (l1 l2 : List BackfillCall) (tid : ℤ) :
    countTeamCalls (l1 ++ l2) tid = countTeamCalls l1 tid + countTeamCalls l2 tid := by
  unfold countTeamCalls
  exact List.countP_append _ _ _

theorem countTeamCalls_team_snoc (l : List BackfillCall) (tid tid' : ℤ) (n : ℕ) (s : String) :
    countTeamCalls (l ++ [.team tid' n s]) tid =
      countTeamCalls l tid + (if tid' = tid then 1 else 0) := by
  rw [countTeamCalls_append]
  congr 1
  unfold countTeamCalls
  by_cases h : tid' = tid <;> simp [List.countP_cons, h]

theorem countTeamCalls_h2h_snoc (l : List BackfillCall) (a b : ℤ) (n : ℕ) (s : String) (tid : ℤ) :
    countTeamCalls (l ++ [.h2h a b n s]) tid = countTeamCalls l tid := by
  rw [countTeamCalls_append]
  unfold countTeamCalls
  simp [List.countP_cons]

/-- The memo-guarded prefetch issues one request for the team exactly when
its key is not yet memoized. -/
theorem prefetchTeam_calls_self (env : Env) (sport : String) (st : HydrateState) (tid : ℤ)
    (hnz : tid ≠ 0) :
    countTeamCalls (prefetchTeam env sport (some tid) st).calls tid =
      countTeamCalls st.calls tid +
        (if st.memo.contains (buildHistoryKey sport tid) then 0 else 1) := by
  have hT : idTruthy (some tid) = true := by simp [idTruthy, hnz]
  simp only [prefetchTeam, Option.getD_some, hT, if_true]
  by_cases hm : buildHistoryKey sport tid ∈ st.memo
  · simp [hm]
  · simp [hm, countTeamCalls_team_snoc]

/-- A prefetch for a different team never adds requests for this team. -/
theorem prefetchTeam_calls_other (env : Env) (sport : String) (teamId : Option ℤ)
    (st : HydrateState) (tid : ℤ) (hne : ∀ x, teamId = some x → x ≠ tid) :
    countTeamCalls (prefetchTeam env sport teamId st).calls tid =
      countTeamCalls st.calls tid := by
  cases teamId with
  | none => simp [prefetchTeam, idTruthy]
  | some x =>
    by_cases hx : x = 0
    · simp [prefetchTeam, idTruthy, hx]
    · have hT : idTruthy (some x) = true := by simp [idTruthy, hx]
      simp only [prefetchTeam, Option.getD_some, hT, if_true]
      by_cases hm : buildHistoryKey sport x ∈ st.memo
      · simp [hm]
      · simp [hm, countTeamCalls_team_snoc, hne x rfl]

/-- The sparse-result retry issues exactly one request for the team when
the local query returns fewer than 3 rows, and none otherwise. -/
theorem retryTeam_calls_self (env : Env) (sport : String) (matchId : ℤ)
    (refDate : Option ℤ) (teamName : Option String) (st : HydrateState) (tid : ℤ)
    (hnz : tid ≠ 0) :
    countTeamCalls (retryTeam env sport matchId refDate teamName (some tid) st).calls tid =
      countTeamCalls st.calls tid +
        (if (fetchRecentMatches st.rows teamName matchId refDate sport
            TEAM_HISTORY_SIZE).length < 3 then 1 else 0) := by
  have hT : idTruthy (some tid) = true := by simp [idTruthy, hnz]
  simp only [retryTeam, Option.getD_some, hT, Bool.and_true, decide_eq_true_eq]
  split_ifs with h
  · rw [countTeamCalls_team_snoc]
    simp
  · simp

/-- The retry of another team never adds requests for this team. -/
theorem retryTeam_calls_other (env : Env) (sport : String) (matchId : ℤ)
    (refDate : Option ℤ) (teamName : Option String) (teamId : Option ℤ)
    (st : HydrateState) (tid : ℤ) (hne : ∀ x, teamId = some x → x ≠ tid) :
    countTeamCalls (retryTeam env sport matchId refDate teamName teamId st).calls tid =
      countTeamCalls st.calls tid := by
  cases teamId with
  | none => simp [retryTeam, idTruthy]
  | some x =>
    by_cases hx : x = 0
    · simp [retryTeam, idTruthy, hx]
    · have hT : idTruthy (some x) = true := by simp [idTruthy, hx]
      simp only [retryTeam, Option.getD_some, hT, Bool.and_true, decide_eq_true_eq]
      split_ifs with h
      · rw [countTeamCalls_team_snoc]
        simp [hne x rfl]
      · rfl

/-- The head-to-head retry only issues h2h requests. -/
theorem retryH2H_calls (env : Env) (sport : String) (matchId : ℤ) (refDate : Option ℤ)
    (homeTeam awayTeam : Option String) (homeId awayId : Option ℤ)
    (st : HydrateState) (tid : ℤ) :
    countTeamCalls (retryH2H env sport matchId refDate homeTeam awayTeam homeId awayId st).calls
        tid = countTeamCalls st.calls tid := by
  simp only [retryH2H]
  split_ifs with h
  · rw [countTeamCalls_h2h_snoc]
  · rfl

/-- A concrete environment with nothing stored and backfills returning
nothing. -/
def backfillEnv : Env :=
  { db := { «matches» := [], stats := [] }
    memo := []
    fetchTeam := fun _ _ _ => []
    fetchH2H := fun _ _ _ _ => [] }

/-- A concrete match whose home team has id 7. -/
def backfillMatch : MatchRecord :=
  { match_id := 1, sport := "football", date := none,
    home_team := some ("A"), away_team := some ("B"),
    home_team_id := some 7, away_team_id := some 8 }

/-- Claim C7, counterexample: a home team with 0 locally stored prior
matches (below the 3-entry threshold) that is not yet in the process memo
receives TWO backfill requests during one hydration run - the memo-guarded
prefetch plus the below-threshold retry - not exactly one as claimed. -/
theorem hydrate_double_backfill_cex :
    (fetchRecentMatches ([] : List MatchRow) (some ("A")) 1 none ("football")
      TEAM_HISTORY_SIZE).length < 3 ∧
    countTeamCalls (hydrateMatchHistory backfillEnv backfillMatch
      { rows := [], memo := [], calls := [] }).calls 7 = 2 ∧
    (2 : ℕ) ≠ 1 := by
  refine ⟨?_, ?_, by norm_num⟩
  · with_unfolding_all decide
  · with_unfolding_all rfl

/-- Claim C7 (amended: a below-threshold team triggers exactly one
threshold backfill, preceded by one memo-guarded prefetch request when the
team is not yet memoized, so one hydration run makes two requests for a
first-seen sparse team and one for a memoized sparse team): the exact
request count for the home team is the sum of the memo indicator and the
sparse indicator evaluated after the two prefetches. -/
theorem hydrate_home_backfill_count (env : Env) (m : MatchRecord) (st : HydrateState) (tid : ℤ)
    (hhome : m.home_team_id = some tid) (hnz : tid ≠ 0)
    (haway : m.away_team_id ≠ some tid) :
    countTeamCalls (hydrateMatchHistory env m st).calls tid =
      countTeamCalls st.calls tid +
      (if st.memo.contains (buildHistoryKey m.sport tid) then 0 else 1) +
      (if (fetchRecentMatches
            (prefetchTeam env m.sport m.away_team_id
              (prefetchTeam env m.sport m.home_team_id st)).rows
            m.home_team m.match_id m.date m.sport TEAM_HISTORY_SIZE).length < 3
       then 1 else 0) := by
  have hne_away : ∀ x, m.away_team_id = some x → x ≠ tid := by
    intro x hx hxx
    exact haway (by rw [hx, hxx])
  unfold hydrateMatchHistory
  rw [retryH2H_calls]
  rw [retryTeam_calls_other _ _ _ _ _ _ _ _ hne_away]
  rw [hhome]
  rw [retryTeam_calls_self _ _ _ _ _ _ _ hnz]
  rw [prefetchTeam_calls_other _ _ _ _ _ hne_away]
  rw [prefetchTeam_calls_self _ _ _ _ hnz]

/-- A hydration state whose memo already contains the home team's key. -/
def memoState : HydrateState :=
  { rows := [], memo := [buildHistoryKey ("football") 7], calls := [] }

/-- Witness for `hydrate_home_backfill_count`: a memoized sparse team gets
exactly one backfill request. -/
theorem hydrate_home_backfill_count_witness :
    backfillMatch.home_team_id = some 7 ∧ (7 : ℤ) ≠ 0 ∧
    backfillMatch.away_team_id ≠ some 7 ∧
    countTeamCalls (hydrateMatchHistory backfillEnv backfillMatch memoState).calls 7 = 1 := by
  refine ⟨rfl, by norm_num, by simp [backfillMatch], ?_⟩
  have h := hydrate_home_backfill_count backfillEnv backfillMatch memoState 7 rfl
    (by norm_num) (by simp [backfillMatch])
  rw [h]
  with_unfolding_all rfl

end PredictorBot
